import Mathlib

/-!
# Verification of the `k8s-sample-controller` reconcile engine

Shallow embedding of `controller/controller.go` (package `controller`) and
`pkg/apis/samplecontroller/v1alpha1/types.go` of the repository
`Evanraisul/k8s-sample-controller`.

Modelling conventions:
* Go `int32` fields are modelled as `Int` (no arithmetic is performed on them
  by the controller, only comparisons, so overflow never matters).
* Go `*int32` (the `Replicas` fields) is `Option Int`; dereferencing `none`
  is a nil-pointer panic, modelled by the `Outcome.panicked` result.
* The backing store and the informer caches are external collaborators; one
  reconcile pass interacts with them through a fixed sequence of call sites,
  so their behaviour during one pass is captured by the `World` record (one
  entry per call site).  Following the semantics of the generated client-go
  typed clients, a successful `Create`/`Update` call returns the submitted
  object (server echo) and a failed call returns the zero-valued object
  (`result = &v1.Deployment{}; err = ...; return`).
* `syncHandler` receives the parent object by pointer from the informer
  cache; an in-place assignment to it (line 373 of the source) is visible in
  the cache.  The model therefore returns `cacheAfter`, the value held by the
  cache when the pass ends, and the re-fetch of the parent (line 434) yields
  that same (possibly mutated) object.
* Store write calls are recorded in issue order in `SyncResult.writes`
  (attempted calls, whether or not they succeed); warning events recorded via
  the event recorder are collected in `SyncResult.events`.
-/

namespace SampleController

/-- `metav1.OwnerReference` — the fields used by `NewControllerRef` /
`IsControlledBy` (`IsControlledBy` compares only the UID of the controlling
reference). -/
structure OwnerReference where
  kind : String
  name : String
  uid : String
  controller : Bool
  deriving DecidableEq, Repr

/-- `DeploymentConfig` from `types.go`: `Name string`, `Replicas *int32`,
`Image string`. -/
structure DeploymentConfig where
  name : String
  replicas : Option Int
  image : String
  deriving DecidableEq, Repr

/-- `ServiceConfig` from `types.go` as consumed by the controller revision:
`Name`, `Type`, `Port int32`, `TargetPort int32`, `NodePort int32`. -/
structure ServiceConfig where
  name : String
  svcType : String
  port : Int
  targetPort : Int
  nodePort : Int
  deriving DecidableEq, Repr

/-- `EvanSpec` from `types.go`. -/
structure EvanSpec where
  deploymentConfig : DeploymentConfig
  serviceConfig : ServiceConfig
  deletionPolicy : String
  deriving DecidableEq, Repr

/-- `EvanStatus` from `types.go`. -/
structure EvanStatus where
  availableReplicas : Int
  deriving DecidableEq, Repr

/-- The `Evan` parent resource (identity fields of `ObjectMeta` flattened in:
name, namespace, UID, creation timestamp as Unix seconds). -/
structure Evan where
  name : String
  ns : String
  uid : String
  creationTimestamp : Int
  spec : EvanSpec
  status : EvanStatus
  deriving DecidableEq, Repr

/-- One entry of `PodSpec.Containers` as built/read by the controller. -/
structure Container where
  name : String
  image : String
  containerPort : Int
  deriving DecidableEq, Repr

/-- `appsv1.Deployment` — the fields written by `newDeployment` and read by
`syncHandler` (`Spec.Replicas`, `ObjectMeta.Name`,
`Spec.Template.Spec.Containers`, owner references, `Status.AvailableReplicas`). -/
structure Deployment where
  name : String
  ns : String
  kind : String
  labels : List (String × String)
  ownerReferences : List OwnerReference
  replicas : Option Int
  selectorMatchLabels : List (String × String)
  templateLabels : List (String × String)
  containers : List Container
  availableReplicas : Int
  deriving DecidableEq, Repr

/-- One entry of `corev1.ServiceSpec.Ports`. -/
structure ServicePort where
  port : Int
  targetPort : Int
  nodePort : Int
  deriving DecidableEq, Repr

/-- `corev1.Service` — the fields written by `newService` and read by
`syncHandler` (`ObjectMeta.Name`, `Spec.Ports`, owner references). -/
structure Service where
  name : String
  ns : String
  kind : String
  labels : List (String × String)
  ownerReferences : List OwnerReference
  svcType : String
  selector : List (String × String)
  ports : List ServicePort
  deriving DecidableEq, Repr

/-- The zero value of `appsv1.Deployment` (what a generated client call
returns alongside a non-nil error). -/
def zeroDeployment : Deployment :=
  { name := "", ns := "", kind := "", labels := [], ownerReferences := [],
    replicas := none, selectorMatchLabels := [], templateLabels := [],
    containers := [], availableReplicas := 0 }

/-- The zero value of `corev1.Service`. -/
def zeroService : Service :=
  { name := "", ns := "", kind := "", labels := [], ownerReferences := [],
    svcType := "", selector := [], ports := [] }

/-- `metav1.NewControllerRef(Evan, ...WithKind("Evan"))`: a controlling
owner reference carrying the parent's kind, name and UID. -/
def newControllerRef (evan : Evan) : OwnerReference :=
  { kind := "Evan", name := evan.name, uid := evan.uid, controller := true }

/-- `metav1.GetControllerOf`: the owner reference flagged as controller. -/
def getControllerOf (refs : List OwnerReference) : Option OwnerReference :=
  refs.find? (fun r => r.controller)

/-- `metav1.IsControlledBy(obj, Evan)`: true iff the object carries a
controlling owner reference whose UID is the parent's UID. -/
def isControlledBy (refs : List OwnerReference) (evan : Evan) : Bool :=
  match getControllerOf refs with
  | some r => r.uid == evan.uid
  | none => false

/-- `MessageResourceExists` (constant, line 64) applied by `fmt.Sprintf` with
the `%q`-quoted resource name. -/
def MessageResourceExists (resourceName : String) : String :=
  "Resource \"" ++ resourceName ++ "\" already exists and is not managed by Evan"

/-- `generateDeploymentName` (lines 292-298): `"<parent>-<override>-<ts>"`,
overwritten with `"<parent>-<ts>"` when the override is empty. -/
def generateDeploymentName (evanName : String) (evanDeploymentName : String)
    (resourceCreationTimestamp : Int) : String :=
  let deploymentName :=
    evanName ++ "-" ++ evanDeploymentName ++ "-" ++ toString resourceCreationTimestamp
  if evanDeploymentName = "" then
    evanName ++ "-" ++ toString resourceCreationTimestamp
  else
    deploymentName

/-- `generateServiceName` (lines 299-305): same derivation from the service
override name. -/
def generateServiceName (evanName : String) (evanServiceName : String)
    (resourceCreationTimestamp : Int) : String :=
  let deploymentName :=
    evanName ++ "-" ++ evanServiceName ++ "-" ++ toString resourceCreationTimestamp
  if evanServiceName = "" then
    evanName ++ "-" ++ toString resourceCreationTimestamp
  else
    deploymentName

/-- `isReplicasChanged` (lines 307-312). -/
def isReplicasChanged (evanReplicas : Int) (deploymentReplicas : Int) : Bool :=
  if evanReplicas != 0 && evanReplicas != deploymentReplicas then true else false

/-- `isDeploymentNameChanged` (lines 313-318). -/
def isDeploymentNameChanged (evanDeploymentName : String) (deploymentName : String) : Bool :=
  if evanDeploymentName != "" && evanDeploymentName != deploymentName then true else false

/-- `isDeploymentImageChanged` (lines 319-324). -/
def isDeploymentImageChanged (evanDeploymentImage : String) (deploymentImage : String) : Bool :=
  if evanDeploymentImage != "" && evanDeploymentImage != deploymentImage then true else false

/-- `isServiceNameChanged` (lines 326-331). -/
def isServiceNameChanged (evanServiceName : String) (serviceName : String) : Bool :=
  if evanServiceName != "" && evanServiceName != serviceName then true else false

/-- `isServicePortChanged` (lines 332-337). -/
def isServicePortChanged (evanServicePort : Int) (servicePort : Int) : Bool :=
  if evanServicePort != 0 && evanServicePort != servicePort then true else false

/-- `newDeployment` (lines 583-616): desired Workload built from the parent's
`deploymentConfig`; the container port is taken from `ServiceConfig.Port`.
The Status block is left at its zero value. -/
def newDeployment (evan : Evan) (deploymentName : String) : Deployment :=
  { name := deploymentName
    ns := evan.ns
    kind := "Deployment"
    labels := [("app", "my-book")]
    ownerReferences := []
    replicas := evan.spec.deploymentConfig.replicas
    selectorMatchLabels := [("app", "my-book")]
    templateLabels := [("app", "my-book")]
    containers := [{ name := "my-book",
                     image := evan.spec.deploymentConfig.image,
                     containerPort := evan.spec.serviceConfig.port }]
    availableReplicas := 0 }

/-- `newService` (lines 618-647): desired Endpoint built from the parent's
`serviceConfig` with the (possibly defaulted) target port. -/
def newService (evan : Evan) (serviceName : String) (serviceTargetPort : Int) : Service :=
  { name := serviceName
    ns := evan.ns
    kind := "Service"
    labels := [("app", "my-book")]
    ownerReferences := []
    svcType := evan.spec.serviceConfig.svcType
    selector := [("app", "my-book")]
    ports := [{ port := evan.spec.serviceConfig.port,
                targetPort := serviceTargetPort,
                nodePort := evan.spec.serviceConfig.nodePort }] }

/-- `updateevan` (lines 513-525): the object written to the parent's store —
a deep copy of the cached parent with only `Status.AvailableReplicas`
replaced by the passed deployment object's `Status.AvailableReplicas`. -/
def updateevan (evan : Evan) (deployment : Deployment) : Evan :=
  { evan with status := { availableReplicas := deployment.availableReplicas } }

/-- Which diff predicate triggered a child `Update` call (the three
deployment update call sites at lines 409/418/427 and the two service update
call sites at lines 490/499). -/
inductive UpdateReason where
  | replicas
  | byName
  | image
  | port
  deriving DecidableEq, Repr

/-- One store write call issued during a pass, carrying the submitted
object.  (Calls are recorded whether or not the store accepts them.) -/
inductive WriteOp where
  | createDeployment (d : Deployment)
  | updateDeployment (why : UpdateReason) (d : Deployment)
  | createService (s : Service)
  | updateService (why : UpdateReason) (s : Service)
  | updateEvan (e : Evan)
  deriving DecidableEq, Repr

/-- The error classes `syncHandler` can return (each corresponds to one
`return err` site). -/
inductive SyncErr where
  | deploymentCreateFailed
  | deploymentConflict
  | serviceCreateFailed
  | serviceConflict
  | statusUpdateFailed
  deriving DecidableEq, Repr

/-- How a pass ends: a Go nil-pointer panic, or a `return` with `nil`
(`Outcome.returned none`) or with an error. -/
inductive Outcome where
  | panicked
  | returned (e : Option SyncErr)
  deriving DecidableEq, Repr

/-- Result of the `kubeclientset...Services(...).Get` call (line 470): the
object, a NotFound error, or a different error (which the source does not
check — it proceeds with the zero-valued object the client returned). -/
inductive ServiceGetResult where
  | found (s : Service)
  | notFound
  | errOther
  deriving DecidableEq, Repr

/-- External behaviour of the informer caches and the backing store during
one pass, one entry per call site of `syncHandler`.  A `...Ok := false`
entry means that call returns a non-nil error (together with the
zero-valued object, per the generated typed clients). -/
structure World where
  /-- `deploymentsLister...Get(deploymentName)` (line 385): the cached
  Deployment, or `none` for NotFound. -/
  deploymentInCache : Option Deployment
  /-- result of `Deployments(...).Create` (line 388) -/
  deploymentCreateOk : Bool
  /-- result of the replica-triggered `Deployments(...).Update` (line 409) -/
  deploymentUpdateReplicasOk : Bool
  /-- result of the name-triggered `Deployments(...).Update` (line 418) -/
  deploymentUpdateNameOk : Bool
  /-- result of the image-triggered `Deployments(...).Update` (line 427) -/
  deploymentUpdateImageOk : Bool
  /-- result of `Services(...).Get` (line 470) -/
  serviceGet : ServiceGetResult
  /-- result of `Services(...).Create` (line 473) -/
  serviceCreateOk : Bool
  /-- result of the name-triggered `Services(...).Update` (line 490) -/
  serviceUpdateNameOk : Bool
  /-- result of the port-triggered `Services(...).Update` (line 499) -/
  serviceUpdatePortOk : Bool
  /-- result of `Evans(...).Update` in `updateevan` (line 523) -/
  evanStatusUpdateOk : Bool
  deriving DecidableEq, Repr

/-- Intermediate result of one phase of the pass: a panic, an early
`return`, or fall-through to the next phase, each carrying the writes and
warning events issued so far in the phase. -/
inductive PhaseRes (α : Type) where
  | panicked (writes : List WriteOp) (events : List String)
  | earlyReturn (e : Option SyncErr) (writes : List WriteOp) (events : List String)
  | next (a : α) (writes : List WriteOp) (events : List String)
  deriving DecidableEq, Repr

/-- Lines 372-374 of `syncHandler`: `if Evan.Spec.DeletionPolicy == "" {
Evan.Spec.DeletionPolicy = "WipeOut" }` — an assignment through the pointer
obtained from the lister's cache. -/
def evanDefaulted (evan : Evan) : Evan :=
  if evan.spec.deletionPolicy = "" then
    { evan with spec := { evan.spec with deletionPolicy := "WipeOut" } }
  else evan

/-- Lines 377-382: the desired Workload, with the controlling owner
reference attached exactly when the (defaulted) policy is `WipeOut`. -/
def desiredDeployment (evan1 : Evan) (deploymentName : String) : Deployment :=
  if evan1.spec.deletionPolicy = "WipeOut" then
    { newDeployment evan1 deploymentName with
        ownerReferences := [newControllerRef evan1] }
  else newDeployment evan1 deploymentName

/-- Lines 461-467: the desired Endpoint, with the controlling owner
reference attached exactly when the (defaulted) policy is `WipeOut`. -/
def desiredService (evan1 : Evan) (serviceName : String)
    (serviceTargetPort : Int) : Service :=
  if evan1.spec.deletionPolicy = "WipeOut" then
    { newService evan1 serviceName serviceTargetPort with
        ownerReferences := [newControllerRef evan1] }
  else newService evan1 serviceName serviceTargetPort

/-- One diff-gated Deployment update block of `syncHandler`
(`if isXChanged(...) { deployment, err = ...Update(ctx, updateDeployment, ...);
if err != nil { fmt.Println(err) } }`): when the predicate fires, the update
call is issued with the desired object; the local variable then holds the
desired object on success and the zero-valued object the client returned on
failure, and the error is dropped either way. -/
def applyDeploymentUpdate (fire : Bool) (callOk : Bool) (why : UpdateReason)
    (updateDeployment current : Deployment) (ws : List WriteOp) :
    Deployment × List WriteOp :=
  if fire then
    ((if callOk then updateDeployment else zeroDeployment),
     ws ++ [WriteOp.updateDeployment why updateDeployment])
  else (current, ws)

/-- Lines 396-431 of `syncHandler`, from the ownership check onwards: fail
on an ownership conflict under `WipeOut`, then run the three diff-gated
update calls.  The `*Evan.Spec.DeploymentConfig.Replicas` /
`*deployment.Spec.Replicas` dereferences panic on `none`, as does the
`Containers[0]` index on an empty container list. -/
def deploymentConverge (evan1 : Evan) (deploymentName : String)
    (updateDeployment deployment : Deployment) (ws : List WriteOp)
    (w : World) : PhaseRes Deployment :=
  if evan1.spec.deletionPolicy = "WipeOut"
      ∧ ¬ isControlledBy deployment.ownerReferences evan1 then
    PhaseRes.earlyReturn (some SyncErr.deploymentConflict) ws
      [MessageResourceExists deploymentName]
  else
    match evan1.spec.deploymentConfig.replicas, deployment.replicas with
    | none, _ => PhaseRes.panicked ws []
    | some _, none => PhaseRes.panicked ws []
    | some evanReplicas, some deploymentReplicas =>
      let s1 := applyDeploymentUpdate (isReplicasChanged evanReplicas deploymentReplicas)
        w.deploymentUpdateReplicasOk UpdateReason.replicas updateDeployment deployment ws
      let s2 := applyDeploymentUpdate (isDeploymentNameChanged deploymentName s1.1.name)
        w.deploymentUpdateNameOk UpdateReason.byName updateDeployment s1.1 s1.2
      match s2.1.containers with
      | [] => PhaseRes.panicked s2.2 []
      | c0 :: _ =>
        let s3 := applyDeploymentUpdate
          (isDeploymentImageChanged evan1.spec.deploymentConfig.image c0.image)
          w.deploymentUpdateImageOk UpdateReason.image updateDeployment s2.1 s2.2
        PhaseRes.next s3.1 s3.2 []

/-- Lines 384-431 of `syncHandler`: fetch the Deployment by the derived name
from the lister, create it when absent (a create failure is returned with
the error), then continue with `deploymentConverge`. -/
def deploymentPhase (evan1 : Evan) (deploymentName : String)
    (updateDeployment : Deployment) (w : World) : PhaseRes Deployment :=
  match w.deploymentInCache, w.deploymentCreateOk with
  | none, false =>
    PhaseRes.earlyReturn (some SyncErr.deploymentCreateFailed)
      [WriteOp.createDeployment updateDeployment] []
  | none, true =>
    deploymentConverge evan1 deploymentName updateDeployment updateDeployment
      [WriteOp.createDeployment updateDeployment] w
  | some deployment, _ =>
    deploymentConverge evan1 deploymentName updateDeployment deployment [] w

/-- One diff-gated Service update block of `syncHandler` (same Go pattern as
`applyDeploymentUpdate`, against the Service client). -/
def applyServiceUpdate (fire : Bool) (callOk : Bool) (why : UpdateReason)
    (updateService current : Service) (ws : List WriteOp) :
    Service × List WriteOp :=
  if fire then
    ((if callOk then updateService else zeroService),
     ws ++ [WriteOp.updateService why updateService])
  else (current, ws)

/-- Lines 481-503: the ownership check and the two diff-gated update calls
for the Service (the `Ports[0]` index panics on an empty port list). -/
def serviceConverge (evan1 : Evan) (serviceName : String) (servicePort : Int)
    (updateService service : Service) (ws : List WriteOp) (w : World) :
    PhaseRes Unit :=
  if evan1.spec.deletionPolicy = "WipeOut"
      ∧ ¬ isControlledBy service.ownerReferences evan1 then
    PhaseRes.earlyReturn (some SyncErr.serviceConflict) ws
      [MessageResourceExists serviceName]
  else
    let s1 := applyServiceUpdate (isServiceNameChanged serviceName service.name)
      w.serviceUpdateNameOk UpdateReason.byName updateService service ws
    match s1.1.ports with
    | [] => PhaseRes.panicked s1.2 []
    | p0 :: _ =>
      let s2 := applyServiceUpdate (isServicePortChanged servicePort p0.port)
        w.serviceUpdatePortOk UpdateReason.port updateService s1.1 s1.2
      PhaseRes.next () s2.2 []

/-- Lines 445-503 of `syncHandler`: derive the service name, abort with a
`nil` return when the user left `serviceConfig.port` unset (zero), default
the target port, build the desired Service (with a controlling owner
reference under `WipeOut`), fetch/create it, then converge.  A non-NotFound
`Get` error is not checked by the source: the pass continues with the
zero-valued Service the client returned. -/
def servicePhase (evan1 : Evan) (resourceCreationTimestamp : Int) (w : World) :
    PhaseRes Unit :=
  let serviceName :=
    generateServiceName evan1.name evan1.spec.serviceConfig.name resourceCreationTimestamp
  let servicePort := evan1.spec.serviceConfig.port
  if servicePort = 0 then
    PhaseRes.earlyReturn none [] []
  else
    let serviceTargetPort :=
      if evan1.spec.serviceConfig.targetPort = 0 then servicePort
      else evan1.spec.serviceConfig.targetPort
    let updateService := desiredService evan1 serviceName serviceTargetPort
    match w.serviceGet with
    | ServiceGetResult.notFound =>
      if w.serviceCreateOk then
        serviceConverge evan1 serviceName servicePort updateService updateService
          [WriteOp.createService updateService] w
      else
        PhaseRes.earlyReturn (some SyncErr.serviceCreateFailed)
          [WriteOp.createService updateService] []
    | ServiceGetResult.found service =>
      serviceConverge evan1 serviceName servicePort updateService service [] w
    | ServiceGetResult.errOther =>
      serviceConverge evan1 serviceName servicePort updateService zeroService [] w

/-- The full result of one `syncHandler` pass. -/
structure SyncResult where
  outcome : Outcome
  writes : List WriteOp
  events : List String
  /-- the parent object held by the informer cache when the pass ends -/
  cacheAfter : Option Evan
  deriving DecidableEq, Repr

/-- `syncHandler` (lines 342-511).  `cached` is the parent object the
informer cache returns for the key (`none` covers both an invalid key and a
deleted parent — the source returns `nil` for both without touching the
store).  The deletion-policy defaulting (lines 372-374) is an assignment
through the cache pointer, so it is reflected in `cacheAfter` and is seen by
the re-fetch of the parent at line 434.  The pass ends with the
unconditional status write `updateevan(Evan, updateDeployment)` — note the
argument is the freshly built desired object, not the observed Deployment. -/
def syncHandler (cached : Option Evan) (w : World) : SyncResult :=
  match cached with
  | none =>
    { outcome := Outcome.returned none, writes := [], events := [], cacheAfter := none }
  | some evan =>
    let resourceCreationTimestamp := evan.creationTimestamp
    let deploymentName :=
      generateDeploymentName evan.name evan.spec.deploymentConfig.name
        resourceCreationTimestamp
    -- lines 372-374: the defaulting assignment mutates the cached object
    let evan1 := evanDefaulted evan
    let updateDeployment := desiredDeployment evan1 deploymentName
    match deploymentPhase evan1 deploymentName updateDeployment w with
    | PhaseRes.panicked ws evs =>
      { outcome := Outcome.panicked, writes := ws, events := evs, cacheAfter := some evan1 }
    | PhaseRes.earlyReturn e ws evs =>
      { outcome := Outcome.returned e, writes := ws, events := evs, cacheAfter := some evan1 }
    | PhaseRes.next _ ws1 evs1 =>
      -- line 434: the parent is re-fetched from the cache, yielding `evan1` again
      match servicePhase evan1 resourceCreationTimestamp w with
      | PhaseRes.panicked ws evs =>
        { outcome := Outcome.panicked, writes := ws1 ++ ws, events := evs1 ++ evs,
          cacheAfter := some evan1 }
      | PhaseRes.earlyReturn e ws evs =>
        { outcome := Outcome.returned e, writes := ws1 ++ ws, events := evs1 ++ evs,
          cacheAfter := some evan1 }
      | PhaseRes.next _ ws2 evs2 =>
        let evanCopy := updateevan evan1 updateDeployment
        let e := if w.evanStatusUpdateOk then none else some SyncErr.statusUpdateFailed
        { outcome := Outcome.returned e,
          writes := ws1 ++ ws2 ++ [WriteOp.updateEvan evanCopy],
          events := evs1 ++ evs2,
          cacheAfter := some evan1 }

/-- The error-dispatch step of `processNextWorkItem` (lines 273-281) for a
well-formed string key: a non-nil `syncHandler` return re-enqueues the key
rate-limited, a nil return calls `Forget`. -/
inductive QueueAction where
  | addRateLimited
  | forget
  deriving DecidableEq, Repr

/-- Lines 273-281 of `processNextWorkItem`. -/
def processNextWorkItem (syncReturn : Option SyncErr) : QueueAction :=
  match syncReturn with
  | some _ => QueueAction.addRateLimited
  | none => QueueAction.forget

/-! ## Concrete fixtures

A parent resource in the steady state together with a store whose children
already match the desired spec; variations of these drive the concrete
counterexamples and witnesses below. -/

/-- A parent named `a`, created at Unix time 1000, policy `WipeOut`,
2 desired replicas of image `nginx`, service port 80 / target port 8080. -/
def evanA : Evan :=
  { name := "a", ns := "default", uid := "uid-1", creationTimestamp := 1000,
    spec := {
      deploymentConfig := { name := "", replicas := some 2, image := "nginx" },
      serviceConfig := { name := "", svcType := "ClusterIP", port := 80,
                         targetPort := 8080, nodePort := 0 },
      deletionPolicy := "WipeOut" },
    status := { availableReplicas := 0 } }

/-- The stored Workload exactly matching `evanA`'s desired Deployment
(including the controlling owner reference). -/
def deploymentA : Deployment :=
  { newDeployment evanA "a-1000" with ownerReferences := [newControllerRef evanA] }

/-- The stored Endpoint exactly matching `evanA`'s desired Service. -/
def serviceA : Service :=
  { newService evanA "a-1000" 8080 with ownerReferences := [newControllerRef evanA] }

/-- A store in which both children of `evanA` exist as desired and every
store call succeeds. -/
def worldA : World :=
  { deploymentInCache := some deploymentA,
    deploymentCreateOk := true,
    deploymentUpdateReplicasOk := true,
    deploymentUpdateNameOk := true,
    deploymentUpdateImageOk := true,
    serviceGet := ServiceGetResult.found serviceA,
    serviceCreateOk := true,
    serviceUpdateNameOk := true,
    serviceUpdatePortOk := true,
    evanStatusUpdateOk := true }

/-- `evanA` with a previously recorded status of 2 available replicas. -/
def evanB : Evan := { evanA with status := { availableReplicas := 2 } }

/-- The steady Workload with an observed `Status.AvailableReplicas` of 3. -/
def deploymentB : Deployment := { deploymentA with availableReplicas := 3 }

/-- `worldA` observing 3 available replicas on the Workload. -/
def worldB : World := { worldA with deploymentInCache := some deploymentB }

/-- The stored Endpoint drifted to port 9090 (desired is 80). -/
def serviceC : Service :=
  { serviceA with ports := [{ port := 9090, targetPort := 8080, nodePort := 0 }] }

/-- `worldA` with the drifted Endpoint whose port-triggered update call
fails. -/
def worldC : World :=
  { worldA with serviceGet := ServiceGetResult.found serviceC,
                serviceUpdatePortOk := false }

/-- `evanA` with `deletionPolicy` left unset. -/
def evanD : Evan :=
  { evanA with spec := { evanA.spec with deletionPolicy := "" } }

/-- `evanA` with `deploymentConfig.replicas` left unset (nil pointer). -/
def evanN : Evan :=
  { evanA with spec := { evanA.spec with
      deploymentConfig := { evanA.spec.deploymentConfig with replicas := none } } }

/-- `evanA` with `serviceConfig.port` left unset (zero). -/
def evanP : Evan :=
  { evanA with spec := { evanA.spec with
      serviceConfig := { evanA.spec.serviceConfig with port := 0 } } }

/-- The Workload under the derived name but without any owner reference
(pre-existing, not controlled by the parent). -/
def deploymentU : Deployment := { deploymentA with ownerReferences := [] }

/-- `worldA` whose cached Workload is the non-owned `deploymentU`. -/
def worldP : World := { worldA with deploymentInCache := some deploymentU }

/-- The Endpoint under the derived name but without any owner reference. -/
def serviceU : Service := { serviceA with ownerReferences := [] }

/-- `worldA` whose stored Endpoint is the non-owned `serviceU`. -/
def worldU : World := { worldA with serviceGet := ServiceGetResult.found serviceU }

/-- The steady Workload drifted to 5 stored replicas (desired is 2). -/
def deploymentR : Deployment := { deploymentA with replicas := some 5 }

/-- `worldA` with the drifted Workload whose replica-triggered update call
fails. -/
def worldR : World :=
  { worldA with deploymentInCache := some deploymentR,
                deploymentUpdateReplicasOk := false }

/-- `worldA` with no cached Workload and a failing Deployment create call. -/
def worldNoCreate : World :=
  { worldA with deploymentInCache := none, deploymentCreateOk := false }

/-- `worldA` with no stored Endpoint and a failing Service create call. -/
def worldNoSvcCreate : World :=
  { worldA with serviceGet := ServiceGetResult.notFound, serviceCreateOk := false }

/-- `worldA` whose parent status update call fails. -/
def worldStatusFail : World := { worldA with evanStatusUpdateOk := false }

/-- `worldA` with no cached Workload (creation succeeds). -/
def worldMiss : World := { worldA with deploymentInCache := none }

/-! ## Write classifiers -/

/-- Store writes addressed to the Workload (Deployment). -/
def isDeploymentWrite : WriteOp → Bool
  | WriteOp.createDeployment _ => true
  | WriteOp.updateDeployment _ _ => true
  | _ => false

/-- Store writes addressed to the Endpoint (Service). -/
def isServiceWrite : WriteOp → Bool
  | WriteOp.createService _ => true
  | WriteOp.updateService _ _ => true
  | _ => false

/-- Update calls issued by the two name-difference branches. -/
def isNameTriggered : WriteOp → Bool
  | WriteOp.updateDeployment UpdateReason.byName _ => true
  | WriteOp.updateService UpdateReason.byName _ => true
  | _ => false

/-- Workload create calls. -/
def isCreateDeployment : WriteOp → Bool
  | WriteOp.createDeployment _ => true
  | _ => false

/-- The writes carried by a phase result, whichever way it ended. -/
def PhaseRes.allWrites {α : Type} : PhaseRes α → List WriteOp
  | PhaseRes.panicked ws _ => ws
  | PhaseRes.earlyReturn _ ws _ => ws
  | PhaseRes.next _ ws _ => ws

/-! ## General lemmas about the diff predicates and the phases -/

theorem isReplicasChanged_self (r : Int) : isReplicasChanged r r = false := by
  simp [isReplicasChanged]

theorem isDeploymentNameChanged_self (n : String) :
    isDeploymentNameChanged n n = false := by
  simp [isDeploymentNameChanged]

theorem isDeploymentImageChanged_self (i : String) :
    isDeploymentImageChanged i i = false := by
  simp [isDeploymentImageChanged]

theorem isServiceNameChanged_self (n : String) : isServiceNameChanged n n = false := by
  simp [isServiceNameChanged]

theorem isServicePortChanged_self (p : Int) : isServicePortChanged p p = false := by
  simp [isServicePortChanged]

/-- A child carrying exactly the controlling reference the controller
attaches is controlled by the parent. -/
theorem isControlledBy_controllerRef (evan : Evan) :
    isControlledBy [newControllerRef evan] evan = true := by
  simp [isControlledBy, getControllerOf, newControllerRef]

theorem applyDeploymentUpdate_snd (fire callOk : Bool) (why : UpdateReason)
    (upd cur : Deployment) (ws : List WriteOp) :
    (applyDeploymentUpdate fire callOk why upd cur ws).2 =
      ws ++ (if fire then [WriteOp.updateDeployment why upd] else []) := by
  cases fire <;> simp [applyDeploymentUpdate]

theorem applyDeploymentUpdate_fst (fire callOk : Bool) (why : UpdateReason)
    (upd cur : Deployment) (ws : List WriteOp) :
    (applyDeploymentUpdate fire callOk why upd cur ws).1 =
      if fire then (if callOk then upd else zeroDeployment) else cur := by
  cases fire <;> simp [applyDeploymentUpdate]

theorem applyServiceUpdate_snd (fire callOk : Bool) (why : UpdateReason)
    (upd cur : Service) (ws : List WriteOp) :
    (applyServiceUpdate fire callOk why upd cur ws).2 =
      ws ++ (if fire then [WriteOp.updateService why upd] else []) := by
  cases fire <;> simp [applyServiceUpdate]

theorem applyServiceUpdate_fst (fire callOk : Bool) (why : UpdateReason)
    (upd cur : Service) (ws : List WriteOp) :
    (applyServiceUpdate fire callOk why upd cur ws).1 =
      if fire then (if callOk then upd else zeroService) else cur := by
  cases fire <;> simp [applyServiceUpdate]

/-- `deploymentConverge` only ever appends Deployment `Update` calls: any
write classifier that rejects those is unchanged by it. -/
theorem deploymentConverge_writes_filter (p : WriteOp → Bool)
    (hp : ∀ why d, p (WriteOp.updateDeployment why d) = false)
    (evan1 : Evan) (dn : String) (upd dep : Deployment) (ws : List WriteOp)
    (w : World) :
    ((deploymentConverge evan1 dn upd dep ws w).allWrites).filter p = ws.filter p := by
  unfold deploymentConverge
  split
  · simp [PhaseRes.allWrites]
  · split
    · simp [PhaseRes.allWrites]
    · simp [PhaseRes.allWrites]
    · dsimp only
      split <;>
        simp [PhaseRes.allWrites, applyDeploymentUpdate_snd, List.filter_append,
          apply_ite (List.filter p), hp]

/-- `serviceConverge` only ever appends Service `Update` calls. -/
theorem serviceConverge_writes_filter (p : WriteOp → Bool)
    (hp : ∀ why s, p (WriteOp.updateService why s) = false)
    (evan1 : Evan) (sn : String) (sp : Int) (upd svc : Service)
    (ws : List WriteOp) (w : World) :
    ((serviceConverge evan1 sn sp upd svc ws w).allWrites).filter p = ws.filter p := by
  unfold serviceConverge
  split
  · simp [PhaseRes.allWrites]
  · dsimp only
    split <;>
      simp [PhaseRes.allWrites, applyServiceUpdate_snd, List.filter_append,
        apply_ite (List.filter p), hp]

/-- The Workload phase issues no Service writes and no parent status write. -/
theorem deploymentPhase_writes_filter (p : WriteOp → Bool)
    (hp : ∀ why d, p (WriteOp.updateDeployment why d) = false)
    (hpc : ∀ d, p (WriteOp.createDeployment d) = false)
    (evan1 : Evan) (dn : String) (upd : Deployment) (w : World) :
    ((deploymentPhase evan1 dn upd w).allWrites).filter p = [] := by
  unfold deploymentPhase
  split
  · simp [PhaseRes.allWrites, hpc]
  · rw [deploymentConverge_writes_filter p hp]
    simp [hpc]
  · rw [deploymentConverge_writes_filter p hp]
    simp

theorem evanDefaulted_name (evan : Evan) : (evanDefaulted evan).name = evan.name := by
  unfold evanDefaulted
  split <;> rfl

theorem evanDefaulted_uid (evan : Evan) : (evanDefaulted evan).uid = evan.uid := by
  unfold evanDefaulted
  split <;> rfl

theorem evanDefaulted_creationTimestamp (evan : Evan) :
    (evanDefaulted evan).creationTimestamp = evan.creationTimestamp := by
  unfold evanDefaulted
  split <;> rfl

theorem evanDefaulted_deploymentConfig (evan : Evan) :
    (evanDefaulted evan).spec.deploymentConfig = evan.spec.deploymentConfig := by
  unfold evanDefaulted
  split <;> rfl

theorem evanDefaulted_serviceConfig (evan : Evan) :
    (evanDefaulted evan).spec.serviceConfig = evan.spec.serviceConfig := by
  unfold evanDefaulted
  split <;> rfl

theorem evanDefaulted_status (evan : Evan) :
    (evanDefaulted evan).status = evan.status := by
  unfold evanDefaulted
  split <;> rfl

/-- The defaulted policy is `WipeOut` exactly when the author's policy was
unset or `WipeOut`. -/
theorem evanDefaulted_deletionPolicy (evan : Evan) :
    (evanDefaulted evan).spec.deletionPolicy =
      if evan.spec.deletionPolicy = "" then "WipeOut"
      else evan.spec.deletionPolicy := by
  unfold evanDefaulted
  split <;> simp_all

/-- Defaulting an already-explicit policy is the identity. -/
theorem evanDefaulted_eq_self (evan : Evan) (h : ¬ evan.spec.deletionPolicy = "") :
    evanDefaulted evan = evan := by
  unfold evanDefaulted
  simp [h]

theorem desiredDeployment_name (evan1 : Evan) (dn : String) :
    (desiredDeployment evan1 dn).name = dn := by
  unfold desiredDeployment
  split <;> rfl

theorem desiredDeployment_replicas (evan1 : Evan) (dn : String) :
    (desiredDeployment evan1 dn).replicas = evan1.spec.deploymentConfig.replicas := by
  unfold desiredDeployment
  split <;> rfl

theorem desiredDeployment_availableReplicas (evan1 : Evan) (dn : String) :
    (desiredDeployment evan1 dn).availableReplicas = 0 := by
  unfold desiredDeployment
  split <;> rfl

theorem desiredDeployment_containers (evan1 : Evan) (dn : String) :
    (desiredDeployment evan1 dn).containers =
      [{ name := "my-book", image := evan1.spec.deploymentConfig.image,
         containerPort := evan1.spec.serviceConfig.port }] := by
  unfold desiredDeployment
  split <;> rfl

theorem desiredService_name (evan1 : Evan) (sn : String) (tp : Int) :
    (desiredService evan1 sn tp).name = sn := by
  unfold desiredService
  split <;> rfl

theorem servicePhase_port_zero (evan1 : Evan) (ts : Int) (w : World)
    (h : evan1.spec.serviceConfig.port = 0) :
    servicePhase evan1 ts w = PhaseRes.earlyReturn none [] [] := by
  unfold servicePhase
  simp [h]

/-- The Endpoint phase issues no Workload writes and no parent status
write. -/
theorem servicePhase_writes_filter (p : WriteOp → Bool)
    (hp : ∀ why s, p (WriteOp.updateService why s) = false)
    (hpc : ∀ s, p (WriteOp.createService s) = false)
    (evan1 : Evan) (ts : Int) (w : World) :
    ((servicePhase evan1 ts w).allWrites).filter p = [] := by
  by_cases h0 : evan1.spec.serviceConfig.port = 0
  · rw [servicePhase_port_zero _ _ _ h0]
    simp [PhaseRes.allWrites]
  · unfold servicePhase
    dsimp only
    rw [if_neg h0]
    rcases hg : w.serviceGet with s | _ | _ <;> simp only [hg]
    · rw [serviceConverge_writes_filter p hp]
      simp
    · by_cases hc : w.serviceCreateOk = true
      · rw [if_pos hc, serviceConverge_writes_filter p hp]
        simp [hpc]
      · rw [if_neg hc]
        simp [PhaseRes.allWrites, hpc]
    · rw [serviceConverge_writes_filter p hp]
      simp

/-- When the existing Workload is controlled by the parent, both replica
pointers are non-nil, both the current and the desired object carry at
least one container, and the replica- and name-triggered update calls (if
issued) succeed, the Workload converge falls through to the Endpoint phase
without an event. -/
theorem deploymentConverge_next (evan1 : Evan) (dn : String)
    (upd dep : Deployment) (ws : List WriteOp) (w : World)
    (er dr : Int)
    (hctl : isControlledBy dep.ownerReferences evan1 = true)
    (her : evan1.spec.deploymentConfig.replicas = some er)
    (hdr : dep.replicas = some dr)
    (huc : upd.containers ≠ [])
    (hdc : dep.containers ≠ [])
    (hro : w.deploymentUpdateReplicasOk = true)
    (hno : w.deploymentUpdateNameOk = true) :
    ∃ d ws2, deploymentConverge evan1 dn upd dep ws w = PhaseRes.next d ws2 [] := by
  obtain ⟨u0, us, hu⟩ := List.exists_cons_of_ne_nil huc
  obtain ⟨d0, ds, hd⟩ := List.exists_cons_of_ne_nil hdc
  unfold deploymentConverge
  rw [if_neg (by simp [hctl])]
  simp only [her, hdr]
  simp only [applyDeploymentUpdate_fst, applyDeploymentUpdate_snd, hro, hno, if_true]
  by_cases h1 : isReplicasChanged er dr = true
  · simp only [h1, if_true]
    by_cases h2 : isDeploymentNameChanged dn upd.name = true
    · simp only [h2, if_true, hu]
      exact ⟨_, _, rfl⟩
    · simp only [h2, Bool.false_eq_true, if_false, hu]
      exact ⟨_, _, rfl⟩
  · simp only [h1, Bool.false_eq_true, if_false]
    by_cases h2 : isDeploymentNameChanged dn dep.name = true
    · simp only [h2, if_true, hu]
      exact ⟨_, _, rfl⟩
    · simp only [h2, Bool.false_eq_true, if_false, hd]
      exact ⟨_, _, rfl⟩

/-- Phase-level version of `deploymentConverge_next` for a cache hit. -/
theorem deploymentPhase_next (evan1 : Evan) (dn : String)
    (upd dep : Deployment) (w : World) (er dr : Int)
    (hcache : w.deploymentInCache = some dep)
    (hctl : isControlledBy dep.ownerReferences evan1 = true)
    (her : evan1.spec.deploymentConfig.replicas = some er)
    (hdr : dep.replicas = some dr)
    (huc : upd.containers ≠ [])
    (hdc : dep.containers ≠ [])
    (hro : w.deploymentUpdateReplicasOk = true)
    (hno : w.deploymentUpdateNameOk = true) :
    ∃ d ws2, deploymentPhase evan1 dn upd w = PhaseRes.next d ws2 [] := by
  unfold deploymentPhase
  simp only [hcache]
  exact deploymentConverge_next evan1 dn upd dep [] w er dr hctl her hdr huc hdc hro hno

/-- `isControlledBy` only consults the parent's UID, which the defaulting
assignment does not touch. -/
theorem isControlledBy_evanDefaulted (refs : List OwnerReference) (evan : Evan) :
    isControlledBy refs (evanDefaulted evan) = isControlledBy refs evan := by
  unfold evanDefaulted
  split <;> rfl

/-- The conflict arm of the Workload converge (lines 396-402). -/
theorem deploymentConverge_conflict (evan1 : Evan) (dn : String)
    (upd dep : Deployment) (ws : List WriteOp) (w : World)
    (hpol : evan1.spec.deletionPolicy = "WipeOut")
    (hctl : isControlledBy dep.ownerReferences evan1 = false) :
    deploymentConverge evan1 dn upd dep ws w =
      PhaseRes.earlyReturn (some SyncErr.deploymentConflict) ws
        [MessageResourceExists dn] := by
  unfold deploymentConverge
  rw [if_pos ⟨hpol, by simp [hctl]⟩]

/-- The conflict arm of the Endpoint converge (lines 481-485). -/
theorem serviceConverge_conflict (evan1 : Evan) (sn : String) (sp : Int)
    (upd svc : Service) (ws : List WriteOp) (w : World)
    (hpol : evan1.spec.deletionPolicy = "WipeOut")
    (hctl : isControlledBy svc.ownerReferences evan1 = false) :
    serviceConverge evan1 sn sp upd svc ws w =
      PhaseRes.earlyReturn (some SyncErr.serviceConflict) ws
        [MessageResourceExists sn] := by
  unfold serviceConverge
  rw [if_pos ⟨hpol, by simp [hctl]⟩]

/-- A failing Workload create is returned as the phase result. -/
theorem deploymentPhase_create_fail (evan1 : Evan) (dn : String)
    (upd : Deployment) (w : World)
    (hmiss : w.deploymentInCache = none)
    (hcf : w.deploymentCreateOk = false) :
    deploymentPhase evan1 dn upd w =
      PhaseRes.earlyReturn (some SyncErr.deploymentCreateFailed)
        [WriteOp.createDeployment upd] [] := by
  unfold deploymentPhase
  simp only [hmiss, hcf]

/-- A failing Endpoint create is returned as the phase result. -/
theorem servicePhase_create_fail (evan1 : Evan) (ts : Int) (w : World)
    (hport : ¬ evan1.spec.serviceConfig.port = 0)
    (hsg : w.serviceGet = ServiceGetResult.notFound)
    (hcf : w.serviceCreateOk = false) :
    ∃ sc, servicePhase evan1 ts w =
      PhaseRes.earlyReturn (some SyncErr.serviceCreateFailed)
        [WriteOp.createService sc] [] := by
  unfold servicePhase
  dsimp only
  rw [if_neg hport]
  simp only [hsg, hcf]
  exact ⟨_, rfl⟩

/-- The post-update Workload name when the replica-triggered call, if
issued, succeeds. -/
theorem applyDeploymentUpdate_fst_name (fire callOk : Bool) (why : UpdateReason)
    (upd cur : Deployment) (ws : List WriteOp) (n : String)
    (hok : callOk = true) (hun : upd.name = n) (hcn : cur.name = n) :
    (applyDeploymentUpdate fire callOk why upd cur ws).1.name = n := by
  rw [applyDeploymentUpdate_fst, hok]
  split <;> simp [hun, hcn]

/-- When the current and the desired Workload both already carry the
derived name and the replica-triggered call (if issued) succeeds, the
name-difference predicate never fires and no name-triggered Workload
update is issued. -/
theorem deploymentConverge_no_name_write (evan1 : Evan) (dn : String)
    (upd dep : Deployment) (ws : List WriteOp) (w : World)
    (hun : upd.name = dn) (hdn : dep.name = dn)
    (hro : w.deploymentUpdateReplicasOk = true) :
    ((deploymentConverge evan1 dn upd dep ws w).allWrites).filter isNameTriggered
      = ws.filter isNameTriggered := by
  unfold deploymentConverge
  split
  · simp [PhaseRes.allWrites]
  · split
    · simp [PhaseRes.allWrites]
    · simp [PhaseRes.allWrites]
    · rename_i er dr her hdr
      dsimp only
      rw [applyDeploymentUpdate_fst_name (isReplicasChanged er dr)
        w.deploymentUpdateReplicasOk UpdateReason.replicas upd dep ws dn hro hun hdn,
        isDeploymentNameChanged_self]
      split <;>
        simp [PhaseRes.allWrites, applyDeploymentUpdate, apply_ite Prod.snd,
          apply_ite (List.filter isNameTriggered), List.filter_append, isNameTriggered]

/-- When the current and the desired Endpoint both already carry the
derived name, no name-triggered Service update is issued. -/
theorem serviceConverge_no_name_write (evan1 : Evan) (sn : String) (sp : Int)
    (upd svc : Service) (ws : List WriteOp) (w : World)
    (hsn : svc.name = sn) :
    ((serviceConverge evan1 sn sp upd svc ws w).allWrites).filter isNameTriggered
      = ws.filter isNameTriggered := by
  unfold serviceConverge
  split
  · simp [PhaseRes.allWrites]
  · dsimp only
    rw [hsn, isServiceNameChanged_self]
    simp only [applyServiceUpdate, Bool.false_eq_true, if_false, ite_false]
    split <;>
      simp [PhaseRes.allWrites, applyServiceUpdate, apply_ite Prod.snd,
        apply_ite (List.filter isNameTriggered), List.filter_append, isNameTriggered]

/-- The Workload phase issues no name-triggered update when the desired
object and any cached object carry the derived name and the
replica-triggered call (if issued) succeeds. -/
theorem deploymentPhase_no_name_write (evan1 : Evan) (dn : String)
    (upd : Deployment) (w : World)
    (hun : upd.name = dn)
    (hcached : ∀ dep, w.deploymentInCache = some dep → dep.name = dn)
    (hro : w.deploymentUpdateReplicasOk = true) :
    ((deploymentPhase evan1 dn upd w).allWrites).filter isNameTriggered = [] := by
  unfold deploymentPhase
  rcases hc : w.deploymentInCache with _ | dep
  · rcases hcr : w.deploymentCreateOk with _ | _
    · simp only [hc, hcr]
      simp [PhaseRes.allWrites, isNameTriggered]
    · simp only [hc, hcr]
      rw [deploymentConverge_no_name_write _ _ _ _ _ _ hun hun hro]
      simp [isNameTriggered]
  · simp only [hc]
    rw [deploymentConverge_no_name_write _ _ _ _ _ _ hun (hcached dep hc) hro]
    simp

/-- The Endpoint phase issues no name-triggered update when any stored
Endpoint carries the derived name and the `Get` call does not fail with a
non-NotFound error. -/
theorem servicePhase_no_name_write (evan1 : Evan) (ts : Int) (w : World)
    (hfound : ∀ s, w.serviceGet = ServiceGetResult.found s →
      s.name = generateServiceName evan1.name evan1.spec.serviceConfig.name ts)
    (hgo : w.serviceGet ≠ ServiceGetResult.errOther) :
    ((servicePhase evan1 ts w).allWrites).filter isNameTriggered = [] := by
  by_cases h0 : evan1.spec.serviceConfig.port = 0
  · rw [servicePhase_port_zero _ _ _ h0]
    simp [PhaseRes.allWrites]
  · unfold servicePhase
    dsimp only
    rw [if_neg h0]
    rcases hg : w.serviceGet with s | _ | _
    · simp only [hg]
      rw [serviceConverge_no_name_write _ _ _ _ _ _ _ (hfound s hg)]
      simp
    · simp only [hg]
      by_cases hcx : w.serviceCreateOk = true
      · rw [if_pos hcx]
        rw [serviceConverge_no_name_write _ _ _ _ _ _ _ (desiredService_name _ _ _)]
        simp [isNameTriggered]
      · rw [if_neg hcx]
        simp [PhaseRes.allWrites, isNameTriggered]
    · exact absurd hg hgo

/-- Full evaluation of one pass in the steady state: the (explicitly
`WipeOut`) parent's children exist exactly as desired, so no child write is
issued — yet the pass unconditionally writes the parent status (with the
desired object's zero `AvailableReplicas`) and leaves the cache unchanged. -/
theorem sync_steady_eval (evan : Evan) (w : World) (r : Int)
    (hpol : evan.spec.deletionPolicy = "WipeOut")
    (hrep : evan.spec.deploymentConfig.replicas = some r)
    (hport : ¬ evan.spec.serviceConfig.port = 0)
    (hdep : w.deploymentInCache = some
      { newDeployment evan (generateDeploymentName evan.name
          evan.spec.deploymentConfig.name evan.creationTimestamp) with
          ownerReferences := [newControllerRef evan] })
    (hsvc : w.serviceGet = ServiceGetResult.found
      { newService evan (generateServiceName evan.name
          evan.spec.serviceConfig.name evan.creationTimestamp)
          (if evan.spec.serviceConfig.targetPort = 0 then evan.spec.serviceConfig.port
           else evan.spec.serviceConfig.targetPort) with
          ownerReferences := [newControllerRef evan] }) :
    syncHandler (some evan) w =
      { outcome := Outcome.returned
          (if w.evanStatusUpdateOk then none else some SyncErr.statusUpdateFailed),
        writes := [WriteOp.updateEvan { evan with status := { availableReplicas := 0 } }],
        events := [],
        cacheAfter := some evan } := by
  have hself : evanDefaulted evan = evan := evanDefaulted_eq_self evan (by simp [hpol])
  simp [syncHandler, deploymentPhase, deploymentConverge, servicePhase, serviceConverge,
    hself, desiredDeployment, desiredService,
    applyDeploymentUpdate, applyServiceUpdate,
    newDeployment, newService, updateevan, isControlledBy_controllerRef,
    isReplicasChanged_self, isDeploymentNameChanged_self, isDeploymentImageChanged_self,
    isServiceNameChanged_self, isServicePortChanged_self,
    hpol, hrep, hdep, hsvc, hport]

/-- Under a zero service port the pass never gets past the port guard, so
its writes are exactly the Workload phase's writes. -/
theorem sync_port_zero_writes (evan : Evan) (w : World)
    (hpz : evan.spec.serviceConfig.port = 0) :
    (syncHandler (some evan) w).writes =
      (deploymentPhase (evanDefaulted evan)
        (generateDeploymentName evan.name evan.spec.deploymentConfig.name
          evan.creationTimestamp)
        (desiredDeployment (evanDefaulted evan)
          (generateDeploymentName evan.name evan.spec.deploymentConfig.name
            evan.creationTimestamp)) w).allWrites := by
  have hpz1 : (evanDefaulted evan).spec.serviceConfig.port = 0 := by
    rw [evanDefaulted_serviceConfig]
    exact hpz
  simp only [syncHandler]
  split
  · next ws evs heq =>
    rw [heq]
    rfl
  · next e ws evs heq =>
    rw [heq]
    rfl
  · next d ws1 evs1 heq =>
    rw [servicePhase_port_zero _ _ _ hpz1, heq]
    simp [PhaseRes.allWrites]

/-! ## The claims -/

/-- **C1** (counterexample).  The claim says a second pass against an
unchanged external world issues *zero* write calls.  In the steady state
(`evanA` with both children exactly as desired, `worldA` accepting every
call) the pass leaves the cache unchanged — so the second pass is the very
same computation — yet every pass issues the unconditional parent status
update call: the write list of the (second) pass is `[updateEvan evanA]`,
not `[]`. -/
theorem sync_second_pass_nonzero_writes_cex :
    (syncHandler (some evanA) worldA).cacheAfter = some evanA ∧
    syncHandler ((syncHandler (some evanA) worldA).cacheAfter) worldA
      = syncHandler (some evanA) worldA ∧
    (syncHandler (some evanA) worldA).writes = [WriteOp.updateEvan evanA] ∧
    (syncHandler (some evanA) worldA).writes ≠ [] := by
  refine ⟨rfl, rfl, rfl, by decide⟩

/-- **C1** (amended).  Running `syncHandler` twice in a row against an
unchanged external world whose children already match the desired spec
issues zero *child* (Deployment/Service) write calls on the second pass;
each pass still issues exactly one parent status update call (the
unconditional `updateevan`), and the second pass repeats the first
verbatim. -/
theorem sync_steady_second_pass_only_status_write (evan : Evan) (w : World) (r : Int)
    (hpol : evan.spec.deletionPolicy = "WipeOut")
    (hrep : evan.spec.deploymentConfig.replicas = some r)
    (hport : ¬ evan.spec.serviceConfig.port = 0)
    (hdep : w.deploymentInCache = some
      { newDeployment evan (generateDeploymentName evan.name
          evan.spec.deploymentConfig.name evan.creationTimestamp) with
          ownerReferences := [newControllerRef evan] })
    (hsvc : w.serviceGet = ServiceGetResult.found
      { newService evan (generateServiceName evan.name
          evan.spec.serviceConfig.name evan.creationTimestamp)
          (if evan.spec.serviceConfig.targetPort = 0 then evan.spec.serviceConfig.port
           else evan.spec.serviceConfig.targetPort) with
          ownerReferences := [newControllerRef evan] })
    (hst : w.evanStatusUpdateOk = true) :
    (syncHandler (some evan) w).outcome = Outcome.returned none
    ∧ syncHandler ((syncHandler (some evan) w).cacheAfter) w = syncHandler (some evan) w
    ∧ ((syncHandler (some evan) w).writes).filter isDeploymentWrite = []
    ∧ ((syncHandler (some evan) w).writes).filter isServiceWrite = []
    ∧ (syncHandler (some evan) w).writes =
        [WriteOp.updateEvan { evan with status := { availableReplicas := 0 } }] := by
  have he := sync_steady_eval evan w r hpol hrep hport hdep hsvc
  rw [he]
  refine ⟨by simp [hst], ?_, by simp [isDeploymentWrite], by simp [isServiceWrite], rfl⟩
  simp only []
  rw [he]

/-- **C1** (witness): the amended statement at the concrete steady state
`evanA`/`worldA`. -/
theorem sync_steady_second_pass_only_status_write_witness :
    (syncHandler (some evanA) worldA).outcome = Outcome.returned none
    ∧ syncHandler ((syncHandler (some evanA) worldA).cacheAfter) worldA
        = syncHandler (some evanA) worldA
    ∧ ((syncHandler (some evanA) worldA).writes).filter isDeploymentWrite = []
    ∧ ((syncHandler (some evanA) worldA).writes).filter isServiceWrite = []
    ∧ (syncHandler (some evanA) worldA).writes =
        [WriteOp.updateEvan { evanA with status := { availableReplicas := 0 } }] :=
  sync_steady_second_pass_only_status_write evanA worldA 2 rfl rfl (by decide) rfl rfl rfl

/-- **C2** (code bug).  The claim says a successful reconcile writes the
*observed* Workload's `availableReplicas` into the parent's status.  The
source instead passes the freshly built desired object `updateDeployment`
(whose status block is zero-valued) to `updateevan`, so the written status
is always 0: with the stored Workload observed at 3 available replicas and
the parent's previous status 2, the pass succeeds yet writes
`availableReplicas = 0` — had `updateevan` been applied to the observed
Deployment, it would have produced 3 (third conjunct), as the claim
expects.  Only the status field differs in the written object. -/
theorem status_write_constant_zero_bug :
    (syncHandler (some evanB) worldB).outcome = Outcome.returned none ∧
    (syncHandler (some evanB) worldB).writes =
      [WriteOp.updateEvan { evanB with status := { availableReplicas := 0 } }] ∧
    updateevan evanB deploymentB = { evanB with status := { availableReplicas := 3 } } := by
  refine ⟨rfl, rfl, rfl⟩

/-- **C3** (counterexample).  The claim says every failing store write
makes `syncHandler` return that error.  In `worldC` the stored Endpoint has
drifted (port 9090 vs desired 80) and the port-triggered Service update
call fails (`serviceUpdatePortOk = false`); the call is issued, its error
is printed and dropped (`fmt.Println`), and the pass returns `nil`. -/
theorem swallowed_service_update_error_cex :
    worldC.serviceUpdatePortOk = false ∧
    (syncHandler (some evanA) worldC).writes =
      [WriteOp.updateService UpdateReason.port serviceA, WriteOp.updateEvan evanA] ∧
    (syncHandler (some evanA) worldC).outcome = Outcome.returned none := by
  refine ⟨rfl, rfl, rfl⟩

/-- **C3** (amended).  Errors of the two `Create` calls and of the parent
status update are returned by `syncHandler` (and a non-nil return is what
makes `processNextWorkItem` re-enqueue rate-limited, a nil return what
makes it call `Forget`); the five child `Update` calls, by contrast, swallow
their errors (see the counterexample). -/
theorem write_error_propagation_amended :
    (∀ e, processNextWorkItem (some e) = QueueAction.addRateLimited)
  ∧ processNextWorkItem none = QueueAction.forget
  ∧ (∀ evan w, w.deploymentInCache = none → w.deploymentCreateOk = false →
      (syncHandler (some evan) w).outcome =
        Outcome.returned (some SyncErr.deploymentCreateFailed))
  ∧ (∀ evan w dep er dr,
      w.deploymentInCache = some dep →
      isControlledBy dep.ownerReferences evan = true →
      evan.spec.deploymentConfig.replicas = some er →
      dep.replicas = some dr →
      dep.containers ≠ [] →
      w.deploymentUpdateReplicasOk = true →
      w.deploymentUpdateNameOk = true →
      ¬ evan.spec.serviceConfig.port = 0 →
      w.serviceGet = ServiceGetResult.notFound →
      w.serviceCreateOk = false →
      (syncHandler (some evan) w).outcome =
        Outcome.returned (some SyncErr.serviceCreateFailed))
  ∧ (∀ evan w r,
      evan.spec.deletionPolicy = "WipeOut" →
      evan.spec.deploymentConfig.replicas = some r →
      ¬ evan.spec.serviceConfig.port = 0 →
      w.deploymentInCache = some
        { newDeployment evan (generateDeploymentName evan.name
            evan.spec.deploymentConfig.name evan.creationTimestamp) with
            ownerReferences := [newControllerRef evan] } →
      w.serviceGet = ServiceGetResult.found
        { newService evan (generateServiceName evan.name
            evan.spec.serviceConfig.name evan.creationTimestamp)
            (if evan.spec.serviceConfig.targetPort = 0 then evan.spec.serviceConfig.port
             else evan.spec.serviceConfig.targetPort) with
            ownerReferences := [newControllerRef evan] } →
      w.evanStatusUpdateOk = false →
      (syncHandler (some evan) w).outcome =
        Outcome.returned (some SyncErr.statusUpdateFailed)) := by
  refine ⟨fun e => rfl, rfl, ?_, ?_, ?_⟩
  · intro evan w hmiss hcf
    have hphase := deploymentPhase_create_fail (evanDefaulted evan)
      (generateDeploymentName evan.name evan.spec.deploymentConfig.name
        evan.creationTimestamp)
      (desiredDeployment (evanDefaulted evan)
        (generateDeploymentName evan.name evan.spec.deploymentConfig.name
          evan.creationTimestamp)) w hmiss hcf
    simp only [syncHandler, hphase]
  · intro evan w dep er dr hdep hctlD her hdr hdc hro hno hport hsg hscf
    have her1 : (evanDefaulted evan).spec.deploymentConfig.replicas = some er := by
      rw [evanDefaulted_deploymentConfig]
      exact her
    have hctlD1 : isControlledBy dep.ownerReferences (evanDefaulted evan) = true := by
      rw [isControlledBy_evanDefaulted]
      exact hctlD
    have huc : (desiredDeployment (evanDefaulted evan)
        (generateDeploymentName evan.name evan.spec.deploymentConfig.name
          evan.creationTimestamp)).containers ≠ [] := by
      rw [desiredDeployment_containers]
      simp
    obtain ⟨d3, ws2, hnext⟩ := deploymentPhase_next (evanDefaulted evan)
      (generateDeploymentName evan.name evan.spec.deploymentConfig.name
        evan.creationTimestamp)
      (desiredDeployment (evanDefaulted evan)
        (generateDeploymentName evan.name evan.spec.deploymentConfig.name
          evan.creationTimestamp)) dep w er dr hdep hctlD1 her1 hdr huc hdc hro hno
    have hport1 : ¬ (evanDefaulted evan).spec.serviceConfig.port = 0 := by
      rw [evanDefaulted_serviceConfig]
      exact hport
    obtain ⟨sc, hsphase⟩ := servicePhase_create_fail (evanDefaulted evan)
      evan.creationTimestamp w hport1 hsg hscf
    simp only [syncHandler, hnext, hsphase]
  · intro evan w r hpol hrep hport hdep hsvc hstf
    rw [sync_steady_eval evan w r hpol hrep hport hdep hsvc]
    simp [hstf]

/-- **C3** (witness): the three propagated error classes at concrete
inputs. -/
theorem write_error_propagation_amended_witness :
    processNextWorkItem (some SyncErr.deploymentCreateFailed) = QueueAction.addRateLimited
    ∧ (syncHandler (some evanA) worldNoCreate).outcome =
        Outcome.returned (some SyncErr.deploymentCreateFailed)
    ∧ (syncHandler (some evanA) worldNoSvcCreate).outcome =
        Outcome.returned (some SyncErr.serviceCreateFailed)
    ∧ (syncHandler (some evanA) worldStatusFail).outcome =
        Outcome.returned (some SyncErr.statusUpdateFailed) :=
  ⟨write_error_propagation_amended.1 SyncErr.deploymentCreateFailed,
   write_error_propagation_amended.2.2.1 evanA worldNoCreate rfl rfl,
   write_error_propagation_amended.2.2.2.1 evanA worldNoSvcCreate deploymentA 2 2 rfl
     (by decide) rfl rfl (by decide) rfl rfl (by decide) rfl rfl,
   write_error_propagation_amended.2.2.2.2 evanA worldStatusFail 2 rfl rfl (by decide)
     rfl rfl rfl⟩

/-- **C4** (code bug).  The claim says `syncHandler` never mutates in
place an object obtained from the local cache.  For a parent whose
`deletionPolicy` is unset, the defaulting assignment at line 373
(`Evan.Spec.DeletionPolicy = "WipeOut"`) is performed through the cache
pointer: after the pass the cached object's `spec.deletionPolicy` reads
`WipeOut`, i.e. the cached parent is no longer the object the author
stored — contradicting both the claim and the source's own comment in
`updateevan` ("NEVER modify objects from the store"). -/
theorem cached_parent_mutation_bug :
    evanD.spec.deletionPolicy = "" ∧
    (syncHandler (some evanD) worldA).cacheAfter =
      some { evanD with spec := { evanD.spec with deletionPolicy := "WipeOut" } } ∧
    (syncHandler (some evanD) worldA).cacheAfter ≠ some evanD := by
  refine ⟨rfl, rfl, by decide⟩

/-- **C5** (confirmed).  Ownership-conflict handling, for a parent whose
policy is unset (defaulted to `WipeOut`) or `WipeOut`.  (a) If a Workload
with the derived name exists in the cache but is not controlled by this
parent, the pass emits exactly the warning event, returns the ownership
error, and issues no store write at all.  (b) If the Workload side is
healthy (controlled, non-nil replica pointers, non-empty containers, its
update calls succeeding) and a stored Endpoint with the derived name is not
controlled by this parent, the pass emits exactly the warning event,
returns the ownership error, and issues no Service create or update call. -/
theorem ownership_conflict_guard :
    (∀ evan w dep,
      (evan.spec.deletionPolicy = "" ∨ evan.spec.deletionPolicy = "WipeOut") →
      w.deploymentInCache = some dep →
      isControlledBy dep.ownerReferences evan = false →
      (syncHandler (some evan) w).outcome = Outcome.returned (some SyncErr.deploymentConflict)
      ∧ (syncHandler (some evan) w).events =
          [MessageResourceExists (generateDeploymentName evan.name
            evan.spec.deploymentConfig.name evan.creationTimestamp)]
      ∧ (syncHandler (some evan) w).writes = [])
  ∧ (∀ evan w dep svc er dr,
      (evan.spec.deletionPolicy = "" ∨ evan.spec.deletionPolicy = "WipeOut") →
      w.deploymentInCache = some dep →
      isControlledBy dep.ownerReferences evan = true →
      evan.spec.deploymentConfig.replicas = some er →
      dep.replicas = some dr →
      dep.containers ≠ [] →
      w.deploymentUpdateReplicasOk = true →
      w.deploymentUpdateNameOk = true →
      ¬ evan.spec.serviceConfig.port = 0 →
      w.serviceGet = ServiceGetResult.found svc →
      isControlledBy svc.ownerReferences evan = false →
      (syncHandler (some evan) w).outcome = Outcome.returned (some SyncErr.serviceConflict)
      ∧ (syncHandler (some evan) w).events =
          [MessageResourceExists (generateServiceName evan.name
            evan.spec.serviceConfig.name evan.creationTimestamp)]
      ∧ ((syncHandler (some evan) w).writes).filter isServiceWrite = []) := by
  constructor
  · intro evan w dep hpol hdep hctl
    have hpol1 : (evanDefaulted evan).spec.deletionPolicy = "WipeOut" := by
      rw [evanDefaulted_deletionPolicy]
      rcases hpol with h | h <;> simp [h]
    have hctl1 : isControlledBy dep.ownerReferences (evanDefaulted evan) = false := by
      rw [isControlledBy_evanDefaulted]
      exact hctl
    have hphase : deploymentPhase (evanDefaulted evan)
        (generateDeploymentName evan.name evan.spec.deploymentConfig.name
          evan.creationTimestamp)
        (desiredDeployment (evanDefaulted evan)
          (generateDeploymentName evan.name evan.spec.deploymentConfig.name
            evan.creationTimestamp)) w =
        PhaseRes.earlyReturn (some SyncErr.deploymentConflict) []
          [MessageResourceExists (generateDeploymentName evan.name
            evan.spec.deploymentConfig.name evan.creationTimestamp)] := by
      unfold deploymentPhase
      simp only [hdep]
      exact deploymentConverge_conflict _ _ _ _ _ _ hpol1 hctl1
    simp only [syncHandler, hphase]
    exact ⟨by trivial, by trivial, by trivial⟩
  · intro evan w dep svc er dr hpol hdep hctlD her hdr hdc hro hno hport hsg hctlS
    have hpol1 : (evanDefaulted evan).spec.deletionPolicy = "WipeOut" := by
      rw [evanDefaulted_deletionPolicy]
      rcases hpol with h | h <;> simp [h]
    have her1 : (evanDefaulted evan).spec.deploymentConfig.replicas = some er := by
      rw [evanDefaulted_deploymentConfig]
      exact her
    have hctlD1 : isControlledBy dep.ownerReferences (evanDefaulted evan) = true := by
      rw [isControlledBy_evanDefaulted]
      exact hctlD
    have huc : (desiredDeployment (evanDefaulted evan)
        (generateDeploymentName evan.name evan.spec.deploymentConfig.name
          evan.creationTimestamp)).containers ≠ [] := by
      rw [desiredDeployment_containers]
      simp
    obtain ⟨d3, ws2, hnext⟩ := deploymentPhase_next (evanDefaulted evan)
      (generateDeploymentName evan.name evan.spec.deploymentConfig.name
        evan.creationTimestamp)
      (desiredDeployment (evanDefaulted evan)
        (generateDeploymentName evan.name evan.spec.deploymentConfig.name
          evan.creationTimestamp)) dep w er dr hdep hctlD1 her1 hdr huc hdc hro hno
    have hport1 : ¬ (evanDefaulted evan).spec.serviceConfig.port = 0 := by
      rw [evanDefaulted_serviceConfig]
      exact hport
    have hctlS1 : isControlledBy svc.ownerReferences (evanDefaulted evan) = false := by
      rw [isControlledBy_evanDefaulted]
      exact hctlS
    have hsphase : servicePhase (evanDefaulted evan) evan.creationTimestamp w =
        PhaseRes.earlyReturn (some SyncErr.serviceConflict) []
          [MessageResourceExists (generateServiceName evan.name
            evan.spec.serviceConfig.name evan.creationTimestamp)] := by
      unfold servicePhase
      dsimp only
      rw [if_neg hport1]
      simp only [hsg]
      rw [serviceConverge_conflict _ _ _ _ _ _ _ hpol1 hctlS1]
      rw [evanDefaulted_name, evanDefaulted_serviceConfig]
    have hfil := deploymentPhase_writes_filter isServiceWrite
      (fun _ _ => rfl) (fun _ => rfl) (evanDefaulted evan)
      (generateDeploymentName evan.name evan.spec.deploymentConfig.name
        evan.creationTimestamp)
      (desiredDeployment (evanDefaulted evan)
        (generateDeploymentName evan.name evan.spec.deploymentConfig.name
          evan.creationTimestamp)) w
    rw [hnext] at hfil
    simp only [PhaseRes.allWrites] at hfil
    simp only [syncHandler, hnext, hsphase]
    refine ⟨by trivial, by simp, ?_⟩
    simp [List.filter_append, hfil]

/-- **C5** (witness): part (a) at the non-owned Workload `deploymentU`,
part (b) at the non-owned Endpoint `serviceU`. -/
theorem ownership_conflict_guard_witness :
    ((syncHandler (some evanA) worldP).outcome =
        Outcome.returned (some SyncErr.deploymentConflict)
      ∧ (syncHandler (some evanA) worldP).events =
          [MessageResourceExists (generateDeploymentName evanA.name
            evanA.spec.deploymentConfig.name evanA.creationTimestamp)]
      ∧ (syncHandler (some evanA) worldP).writes = [])
    ∧ ((syncHandler (some evanA) worldU).outcome =
        Outcome.returned (some SyncErr.serviceConflict)
      ∧ (syncHandler (some evanA) worldU).events =
          [MessageResourceExists (generateServiceName evanA.name
            evanA.spec.serviceConfig.name evanA.creationTimestamp)]
      ∧ ((syncHandler (some evanA) worldU).writes).filter isServiceWrite = []) :=
  ⟨ownership_conflict_guard.1 evanA worldP deploymentU (Or.inr rfl) rfl (by decide),
   ownership_conflict_guard.2 evanA worldU deploymentA serviceU 2 2 (Or.inr rfl) rfl
     (by decide) rfl rfl (by decide) rfl rfl (by decide) rfl (by decide)⟩

/-- **C6** (code bug).  The claim says a parent with a nil
`deploymentConfig.replicas` issues no replica-triggered update *and does
not fault*.  The source dereferences `*Evan.Spec.DeploymentConfig.Replicas`
unconditionally at line 407, so with the Workload existing and controlled,
the pass panics on the nil pointer (no update is issued — because nothing
past the dereference runs at all). -/
theorem nil_replicas_panic_bug :
    evanN.spec.deploymentConfig.replicas = none ∧
    (syncHandler (some evanN) worldA).outcome = Outcome.panicked ∧
    (syncHandler (some evanN) worldA).writes = [] := by
  refine ⟨rfl, rfl, rfl⟩

/-- **C7** (counterexample).  The claim says every parent with
`serviceConfig.port = 0` makes `syncHandler` return `nil`.  `evanP` has
port 0 but its Workload slot is occupied by the non-owned `deploymentU`:
the Workload phase runs *before* the port guard and returns the
ownership-conflict error, so the pass does not return `nil` (and the key is
requeued with backoff). -/
theorem port_zero_error_return_cex :
    evanP.spec.serviceConfig.port = 0 ∧
    (syncHandler (some evanP) worldP).outcome =
      Outcome.returned (some SyncErr.deploymentConflict) ∧
    (syncHandler (some evanP) worldP).outcome ≠ Outcome.returned none := by
  refine ⟨rfl, rfl, by decide⟩

/-- **C7** (amended).  A parent with `serviceConfig.port = 0` never causes
an Endpoint (Service) create or update call; and provided the Workload
phase completes without error or panic (existing controlled Workload,
non-nil replica pointers, non-empty containers, successful update calls),
the pass returns `nil` — the port-guard path itself is not an error. -/
theorem port_zero_guard_amended :
    (∀ evan w, evan.spec.serviceConfig.port = 0 →
      ((syncHandler (some evan) w).writes).filter isServiceWrite = [])
  ∧ (∀ evan w dep er dr,
      evan.spec.serviceConfig.port = 0 →
      w.deploymentInCache = some dep →
      isControlledBy dep.ownerReferences evan = true →
      evan.spec.deploymentConfig.replicas = some er →
      dep.replicas = some dr →
      dep.containers ≠ [] →
      w.deploymentUpdateReplicasOk = true →
      w.deploymentUpdateNameOk = true →
      (syncHandler (some evan) w).outcome = Outcome.returned none) := by
  constructor
  · intro evan w hpz
    rw [sync_port_zero_writes evan w hpz]
    exact deploymentPhase_writes_filter isServiceWrite (fun _ _ => rfl) (fun _ => rfl) _ _ _ _
  · intro evan w dep er dr hpz hdep hctlD her hdr hdc hro hno
    have her1 : (evanDefaulted evan).spec.deploymentConfig.replicas = some er := by
      rw [evanDefaulted_deploymentConfig]
      exact her
    have hctlD1 : isControlledBy dep.ownerReferences (evanDefaulted evan) = true := by
      rw [isControlledBy_evanDefaulted]
      exact hctlD
    have huc : (desiredDeployment (evanDefaulted evan)
        (generateDeploymentName evan.name evan.spec.deploymentConfig.name
          evan.creationTimestamp)).containers ≠ [] := by
      rw [desiredDeployment_containers]
      simp
    obtain ⟨d3, ws2, hnext⟩ := deploymentPhase_next (evanDefaulted evan)
      (generateDeploymentName evan.name evan.spec.deploymentConfig.name
        evan.creationTimestamp)
      (desiredDeployment (evanDefaulted evan)
        (generateDeploymentName evan.name evan.spec.deploymentConfig.name
          evan.creationTimestamp)) dep w er dr hdep hctlD1 her1 hdr huc hdc hro hno
    have hpz1 : (evanDefaulted evan).spec.serviceConfig.port = 0 := by
      rw [evanDefaulted_serviceConfig]
      exact hpz
    simp only [syncHandler, hnext, servicePhase_port_zero _ _ _ hpz1]

/-- **C7** (witness): the amended statement at `evanP` (port 0) against
the healthy store `worldA`. -/
theorem port_zero_guard_amended_witness :
    ((syncHandler (some evanP) worldA).writes).filter isServiceWrite = []
    ∧ (syncHandler (some evanP) worldA).outcome = Outcome.returned none :=
  ⟨port_zero_guard_amended.1 evanP worldA rfl,
   port_zero_guard_amended.2 evanP worldA deploymentA 2 2 rfl rfl (by decide) rfl rfl
     (by decide) rfl rfl⟩

/-- **C8** (confirmed).  Deterministic child naming: for every parent
name, override and creation timestamp, both derived names equal
`"<parent>-<override>-<timestamp>"` when the override is non-empty and
`"<parent>-<timestamp>"` when it is empty; in particular `a`/no
override/1000 gives `a-1000` and override `b` gives `a-b-1000`. -/
theorem deterministic_child_naming :
    (∀ p o ts, generateDeploymentName p o ts =
      if o = "" then p ++ "-" ++ toString ts else p ++ "-" ++ o ++ "-" ++ toString ts)
    ∧ (∀ p o ts, generateServiceName p o ts =
      if o = "" then p ++ "-" ++ toString ts else p ++ "-" ++ o ++ "-" ++ toString ts)
    ∧ generateDeploymentName "a" "" 1000 = "a-1000"
    ∧ generateDeploymentName "a" "b" 1000 = "a-b-1000"
    ∧ generateServiceName "a" "" 1000 = "a-1000"
    ∧ generateServiceName "a" "b" 1000 = "a-b-1000" := by
  refine ⟨?_, ?_, rfl, rfl, rfl, rfl⟩ <;>
    · intro p o ts
      by_cases h : o = "" <;> simp [generateDeploymentName, generateServiceName, h]

/-- **C9** (counterexample).  The claim says the name-change update branch
is dead in *every* execution.  In `worldR` the stored Workload has drifted
to 5 replicas and the replica-triggered update call fails: the local
variable is left holding the zero-valued object the client returned, whose
name (`""`) differs from the derived name, so the name-difference predicate
fires and the name-triggered update call *is* issued. -/
theorem name_update_branch_fires_cex :
    worldR.deploymentUpdateReplicasOk = false ∧
    WriteOp.updateDeployment UpdateReason.byName deploymentA
      ∈ (syncHandler (some evanA) worldR).writes := by
  refine ⟨rfl, by decide⟩

/-- **C9** (amended).  The name-change update branches are dead in every
execution in which the store behaves: any cached Workload and any fetched
Endpoint carry their derived names, the replica-triggered update call (if
issued) succeeds, and the Endpoint `Get` does not fail with an unchecked
non-NotFound error.  Then no name-triggered update call is ever issued —
the branch is reachable only through a failed store call that leaves a
local variable holding the client's zero-valued object. -/
theorem name_update_dead_when_store_succeeds (evan : Evan) (w : World)
    (hcached : ∀ dep, w.deploymentInCache = some dep →
      dep.name = generateDeploymentName evan.name evan.spec.deploymentConfig.name
        evan.creationTimestamp)
    (hfound : ∀ s, w.serviceGet = ServiceGetResult.found s →
      s.name = generateServiceName evan.name evan.spec.serviceConfig.name
        evan.creationTimestamp)
    (hro : w.deploymentUpdateReplicasOk = true)
    (hgo : w.serviceGet ≠ ServiceGetResult.errOther) :
    ((syncHandler (some evan) w).writes).filter isNameTriggered = [] := by
  have hdpf := deploymentPhase_no_name_write (evanDefaulted evan)
    (generateDeploymentName evan.name evan.spec.deploymentConfig.name
      evan.creationTimestamp)
    (desiredDeployment (evanDefaulted evan)
      (generateDeploymentName evan.name evan.spec.deploymentConfig.name
        evan.creationTimestamp)) w (desiredDeployment_name _ _) hcached hro
  have hspf := servicePhase_no_name_write (evanDefaulted evan) evan.creationTimestamp w
    (by
      intro s hs
      rw [evanDefaulted_name, evanDefaulted_serviceConfig]
      exact hfound s hs) hgo
  simp only [syncHandler]
  split
  · next ws evs heq =>
    rw [heq] at hdpf
    simpa [PhaseRes.allWrites] using hdpf
  · next e ws evs heq =>
    rw [heq] at hdpf
    simpa [PhaseRes.allWrites] using hdpf
  · next d ws1 evs1 heq =>
    rw [heq] at hdpf
    simp only [PhaseRes.allWrites] at hdpf
    split
    · next ws evs heq2 =>
      rw [heq2] at hspf
      simp only [PhaseRes.allWrites] at hspf
      simp [List.filter_append, hdpf, hspf]
    · next e ws evs heq2 =>
      rw [heq2] at hspf
      simp only [PhaseRes.allWrites] at hspf
      simp [List.filter_append, hdpf, hspf]
    · next u ws2 evs2 heq2 =>
      rw [heq2] at hspf
      simp only [PhaseRes.allWrites] at hspf
      simp [List.filter_append, hdpf, hspf, isNameTriggered]

/-- **C9** (witness): the amended statement at the steady
`evanA`/`worldA`. -/
theorem name_update_dead_when_store_succeeds_witness :
    ((syncHandler (some evanA) worldA).writes).filter isNameTriggered = [] :=
  name_update_dead_when_store_succeeds evanA worldA
    (by
      intro dep h
      rw [show worldA.deploymentInCache = some deploymentA from rfl] at h
      injection h with h2
      rw [h2.symm]
      rfl)
    (by
      intro s h
      rw [show worldA.serviceGet = ServiceGetResult.found serviceA from rfl] at h
      injection h with h2
      rw [h2.symm]
      rfl)
    rfl (by decide)

/-- **C10** (confirmed).  The desired Workload's single container takes its
port from `serviceConfig.port`, not from `deploymentConfig`; and since the
Workload phase runs before the port guard, a parent with
`serviceConfig.port = 0` whose Workload is absent still gets a Deployment
created — with container port 0 — while no Endpoint call is ever issued. -/
theorem container_port_from_service_port :
    (∀ evan dn, (newDeployment evan dn).containers =
      [{ name := "my-book", image := evan.spec.deploymentConfig.image,
         containerPort := evan.spec.serviceConfig.port }])
  ∧ (∀ evan w, evan.spec.serviceConfig.port = 0 → w.deploymentInCache = none →
      w.deploymentCreateOk = true →
      ((syncHandler (some evan) w).writes).filter isCreateDeployment =
        [WriteOp.createDeployment (desiredDeployment (evanDefaulted evan)
          (generateDeploymentName evan.name evan.spec.deploymentConfig.name
            evan.creationTimestamp))]
      ∧ ((desiredDeployment (evanDefaulted evan)
          (generateDeploymentName evan.name evan.spec.deploymentConfig.name
            evan.creationTimestamp)).containers).map (fun c => c.containerPort) = [0]
      ∧ ((syncHandler (some evan) w).writes).filter isServiceWrite = []) := by
  constructor
  · intro evan dn
    rfl
  · intro evan w hpz hmiss hcok
    refine ⟨?_, ?_, ?_⟩
    · rw [sync_port_zero_writes evan w hpz]
      unfold deploymentPhase
      simp only [hmiss, hcok]
      rw [deploymentConverge_writes_filter isCreateDeployment (fun _ _ => rfl)]
      rfl
    · rw [desiredDeployment_containers]
      simp only [List.map]
      rw [evanDefaulted_serviceConfig, hpz]
    · rw [sync_port_zero_writes evan w hpz]
      exact deploymentPhase_writes_filter isServiceWrite (fun _ _ => rfl) (fun _ => rfl) _ _ _ _

/-- **C10** (witness): the port-0 parent `evanP` against the empty store
`worldMiss`. -/
theorem container_port_from_service_port_witness :
    ((syncHandler (some evanP) worldMiss).writes).filter isCreateDeployment =
      [WriteOp.createDeployment (desiredDeployment (evanDefaulted evanP)
        (generateDeploymentName evanP.name evanP.spec.deploymentConfig.name
          evanP.creationTimestamp))]
    ∧ ((desiredDeployment (evanDefaulted evanP)
        (generateDeploymentName evanP.name evanP.spec.deploymentConfig.name
          evanP.creationTimestamp)).containers).map (fun c => c.containerPort) = [0]
    ∧ ((syncHandler (some evanP) worldMiss).writes).filter isServiceWrite = [] :=
  container_port_from_service_port.2 evanP worldMiss rfl rfl rfl

end SampleController
